import Mathlib

/-
Verification of the MiKTeX Application framework core (app.cpp):
the auto-maintenance staleness detector, the maintenance step runner,
the on-demand package-installation orchestrator, and the pre-init
trace buffer.  Shallow embedding: each C++ function that the claims
touch is translated into an executable Lean definition; file-system
facts (existence, last-write time) and collaborator results are passed
in explicitly.
-/

namespace MiKTeXApp

/-- The `MiKTeX::Configuration::TriState` type: `Undetermined`, `True`, `False`. -/
inductive TriState where
  | Undetermined
  | True
  | False
  deriving DecidableEq, Repr

/-! ## Auto maintenance (Application::AutoMaintenance, app.cpp lines 293-420)

A file on disk is modelled as `Option Nat`: `none` when `File::Exists`
is false, `some t` when it exists with last-write time `t`.
Config time values (`GetConfigValue(...).GetTimeT()`) are `Nat`. -/

/-- State read by `Application::AutoMaintenance`: the session's admin-mode
flag, the two config timestamps it compares against, and the files it stats. -/
structure MaintState where
  isAdminMode : Bool
  lastAdminMaintenance : Nat
  lastAdminUpdateDb : Nat
  mpmDatabase : Option Nat
  userLanguageDat : Option Nat
  userLanguagesIni : Option Nat
  userPackageManifestsIni : Option Nat
  deriving DecidableEq, Repr

/-- `IsNewer(path1, path2)` (app.cpp line 293): both files exist and
`path1`'s last-write time is strictly greater than `path2`'s. -/
def IsNewer (path1 path2 : Option Nat) : Bool :=
  match path1, path2 with
  | some t1, some t2 => t1 > t2
  | _, _ => false

/-- `mustRefreshFndb` (app.cpp line 324): the file-name database is
refreshed when it does not exist, or, in user mode, when the last admin
maintenance timestamp exceeds its last-write time. -/
def mustRefreshFndb (s : MaintState) : Bool :=
  match s.mpmDatabase with
  | none => true
  | some t => !s.isAdminMode && s.lastAdminMaintenance > t

/-- `mustRefreshUserLanguageDat` (app.cpp lines 330-332): in user mode,
`language.dat` is rebuilt when it exists and the last admin maintenance
timestamp exceeds its last-write time, or when `languages.ini` is newer
than it (`IsNewer`, which requires both files to exist). -/
def mustRefreshUserLanguageDat (s : MaintState) : Bool :=
  (!s.isAdminMode
      && (match s.userLanguageDat with
          | some t => s.lastAdminMaintenance > t
          | none => false))
    || (!s.isAdminMode && IsNewer s.userLanguagesIni s.userLanguageDat)

/-- `mustUpdateDb` (app.cpp lines 336-342): in user mode, the package
database is updated when the user's `package-manifests.ini` exists and
the last admin db-update timestamp exceeds its last-write time. -/
def mustUpdateDb (s : MaintState) : Bool :=
  !s.isAdminMode
    && (match s.userPackageManifestsIni with
        | some t => s.lastAdminUpdateDb > t
        | none => false)

/-- Modelled from the spec: the Staleness Oracle contract
`NeedsRefresh(sourceTimestamp, derivedTimestamp)` as the spec words it —
true iff the derived artifact is missing or the source timestamp is
strictly greater than the derived artifact's timestamp.  Used only to
compare the spec's formula with the decisions computed by the code. -/
def NeedsRefreshSpec (sourceTs : Nat) (derivedTs : Option Nat) : Bool :=
  match derivedTs with
  | none => true
  | some t => sourceTs > t

/-- The four maintenance actions run while the lock is held, in source
order (app.cpp lines 353-418). -/
inductive Step where
  | updateDb
  | fndbRefresh
  | fontmapsConfigure
  | languagesConfigure
  deriving DecidableEq, Repr

/-- The steps a maintenance run schedules, in the source's fixed order:
package-db update gated on `mustUpdateDb`, then fndb refresh and font-map
configuration both gated on `mustRefreshFndb`, then language configuration
gated on `mustRefreshUserLanguageDat`. -/
def scheduledSteps (s : MaintState) : List Step :=
  (if mustUpdateDb s then [Step.updateDb] else [])
    ++ (if mustRefreshFndb s then [Step.fndbRefresh] else [])
    ++ (if mustRefreshFndb s then [Step.fontmapsConfigure] else [])
    ++ (if mustRefreshUserLanguageDat s then [Step.languagesConfigure] else [])

/-- Result of one `AutoMaintenance` run: whether the maintenance lock was
attempted (`LockFile::TryLock(0ms)`), and the actions executed while it
was held, each paired with its subprocess result. -/
structure MaintResult where
  lockAttempted : Bool
  steps : List (Step × Option Int)
  deriving DecidableEq, Repr

/-- `Application::AutoMaintenance` (app.cpp lines 344-419), after the
staleness booleans are computed.  `helperFound` is the result of
`FindFile(MIKTEX_MIKTEX_EXE)`, `lockAcquired` the result of the zero-wait
`TryLock`, and `exec` gives each launched step's outcome (`none` when
`Process::Run` fails to launch, `some code` for an exit code).  Each
step only logs its failure; no step's result gates a later step. -/
def autoMaintenance (s : MaintState) (helperFound lockAcquired : Bool)
    (exec : Step → Option Int) : MaintResult :=
  if (mustRefreshFndb s || mustRefreshUserLanguageDat s || mustUpdateDb s) && helperFound then
    if !lockAcquired then
      { lockAttempted := true, steps := [] }
    else
      let steps0 : List (Step × Option Int) :=
        if mustUpdateDb s then [(Step.updateDb, exec Step.updateDb)] else []
      let steps1 :=
        if mustRefreshFndb s then steps0 ++ [(Step.fndbRefresh, exec Step.fndbRefresh)] else steps0
      let steps2 :=
        if mustRefreshFndb s then steps1 ++ [(Step.fontmapsConfigure, exec Step.fontmapsConfigure)] else steps1
      let steps3 :=
        if mustRefreshUserLanguageDat s then steps2 ++ [(Step.languagesConfigure, exec Step.languagesConfigure)] else steps2
      { lockAttempted := true, steps := steps3 }
  else
    { lockAttempted := false, steps := [] }

/-! ## Package installation (Application::InstallPackage, app.cpp lines 636-726) -/

/-- The per-process state that `Application::InstallPackage` reads and
writes: the declined (ignored) package set, the installer tri-state, the
auto-admin tri-state, and the session's admin-mode flag. -/
structure AppState where
  ignoredPackages : List String
  enableInstaller : TriState
  mpmAutoAdmin : TriState
  isAdminMode : Bool
  deriving DecidableEq, Repr

/-- Result of `MiKTeX::UI::InstallPackageMessageBox`: the `YES`,
`DONTASKAGAIN` and `ADMIN` bits of its return value. -/
structure PromptResult where
  yes : Bool
  dontAskAgain : Bool
  admin : Bool
  deriving DecidableEq, Repr

/-- Outcome of the `installer->InstallRemove(...)` collaborator call:
it returns normally or raises a `MiKTeXException`. -/
inductive InstallOutcome where
  | success
  | miktexError
  deriving DecidableEq, Repr

/-- Collaborator behaviour supplied to one `InstallPackage` call:
the message-box result, whether the proxy-credentials precondition at
app.cpp lines 674-679 holds (remote default repository, proxy in use,
authentication required, no stored user), the proxy dialog's result, and
the installer's outcome. -/
structure InstallEnv where
  prompt : PromptResult
  needProxyAuth : Bool
  proxyOk : Bool
  installerOutcome : InstallOutcome
  deriving DecidableEq, Repr

/-- Which collaborators one `InstallPackage` call invoked, and whether
the scoped admin-mode elevation happened. -/
structure InstallEvents where
  promptShown : Bool
  proxyPromptShown : Bool
  installerInvoked : Bool
  elevated : Bool
  deriving DecidableEq, Repr

/-- Result of one `InstallPackage` call: its boolean return value, the
post-call state, whether the `installRoot` output parameter was assigned,
and the collaborator-call record. -/
structure InstallResult where
  ret : Bool
  state : AppState
  installRootSet : Bool
  events : InstallEvents
  deriving DecidableEq, Repr

/-- No collaborator invoked, no elevation. -/
def noEvents : InstallEvents :=
  { promptShown := false, proxyPromptShown := false, installerInvoked := false, elevated := false }

/-- The state mutations of `InstallPackage`'s consent prompt (app.cpp
lines 650-670), entered only when the installer flag is `Undetermined`:
`DONTASKAGAIN` persists the flag to `True` or `False` according to `YES`;
a declined prompt adds the package to the declined set; an accepted one
sets the auto-admin flag from the `ADMIN` bit. -/
def promptUpdate (s : AppState) (packageId : String) (p : PromptResult) : AppState :=
  let withFlag :=
    if p.dontAskAgain then
      { s with enableInstaller := if p.yes then TriState.True else TriState.False }
    else s
  if !p.yes then
    { withFlag with ignoredPackages := packageId :: withFlag.ignoredPackages }
  else
    { withFlag with mpmAutoAdmin := if p.admin then TriState.True else TriState.False }

/-- The tail of `InstallPackage` (app.cpp lines 700-725): the scoped
admin-mode switch around the single `installer->InstallRemove` call,
the assignment of `installRoot` on success, and the `MiKTeXException`
handler that disables the installer and declines the package; the mode
switch is undone on both paths before returning. -/
def runInstaller (s1 : AppState) (packageId : String) (outcome : InstallOutcome)
    (promptShown proxyPromptShown : Bool) : InstallResult :=
  let switchToAdminMode := s1.mpmAutoAdmin = TriState.True && !s1.isAdminMode
  let s2 := if switchToAdminMode then { s1 with isAdminMode := true } else s1
  match outcome with
  | InstallOutcome.success =>
    let s3 := if switchToAdminMode then { s2 with isAdminMode := false } else s2
    { ret := true, state := s3, installRootSet := true,
      events := { promptShown := promptShown, proxyPromptShown := proxyPromptShown,
                  installerInvoked := true, elevated := switchToAdminMode } }
  | InstallOutcome.miktexError =>
    let sFail := { s2 with enableInstaller := TriState.False,
                           ignoredPackages := packageId :: s2.ignoredPackages }
    let s3 := if switchToAdminMode then { sFail with isAdminMode := false } else sFail
    { ret := false, state := s3, installRootSet := false,
      events := { promptShown := promptShown, proxyPromptShown := proxyPromptShown,
                  installerInvoked := true, elevated := switchToAdminMode } }

/-- `Application::InstallPackage` (app.cpp lines 636-726).  The early
rejections (declined set, installer disabled), the consent prompt on an
undetermined installer flag (`promptUpdate`), the proxy-credentials
prompt, and the installer invocation (`runInstaller`). -/
def InstallPackage (s : AppState) (packageId : String) (env : InstallEnv) : InstallResult :=
  if packageId ∈ s.ignoredPackages then
    { ret := false, state := s, installRootSet := false, events := noEvents }
  else if s.enableInstaller = TriState.False then
    { ret := false, state := s, installRootSet := false, events := noEvents }
  else
    let promptShown : Bool := s.enableInstaller = TriState.Undetermined
    let s1 := if promptShown then promptUpdate s packageId env.prompt else s
    if promptShown && !env.prompt.yes then
      { ret := false, state := s1, installRootSet := false,
        events := { noEvents with promptShown := true } }
    else if env.needProxyAuth && !env.proxyOk then
      { ret := false, state := s1, installRootSet := false,
        events := { noEvents with promptShown := promptShown, proxyPromptShown := true } }
    else
      runInstaller s1 packageId env.installerOutcome promptShown env.needProxyAuth

/-! ## Init's auto-admin resolution (Application::Init, app.cpp lines 503-508) -/

/-- The auto-admin flag as resolved by `Application::Init`: the tri-state
read from the `AutoAdmin` config value, forced to `False` (with a warning)
when it is `True` but the session is not a shared setup. -/
def initAutoAdmin (configAutoAdmin : TriState) (isSharedSetup : Bool) : TriState :=
  if configAutoAdmin = TriState.True && !isSharedSetup then TriState.False
  else configAutoAdmin

/-! ## Pre-init trace buffer (Application::Trace, app.cpp lines 802-825) -/

/-- One `Application::Trace` call while log4cxx is not yet configured
(app.cpp lines 804-811): if the pending queue's size exceeds 100 the
whole queue is cleared, then the new message is appended. -/
def recordTrace {α : Type} (queue : List α) (entry : α) : List α :=
  if queue.length > 100 then [entry] else queue ++ [entry]

/-- A sequence of pre-configuration `Trace` calls, oldest first. -/
def recordAll {α : Type} (queue : List α) (entries : List α) : List α :=
  entries.foldl recordTrace queue

/-! ## Helper lemmas -/

/-- The consent prompt never touches the session's admin-mode flag. -/
theorem promptUpdate_isAdminMode (s : AppState) (packageId : String) (p : PromptResult) :
    (promptUpdate s packageId p).isAdminMode = s.isAdminMode := by
  unfold promptUpdate
  by_cases h1 : p.dontAskAgain = Bool.true <;> by_cases h2 : p.yes = Bool.true <;> simp [h1, h2]

/-- The installer invocation restores the admin-mode flag on both the
success and the exception path. -/
theorem runInstaller_isAdminMode (s1 : AppState) (packageId : String)
    (outcome : InstallOutcome) (a b : Bool) :
    (runInstaller s1 packageId outcome a b).state.isAdminMode = s1.isAdminMode := by
  unfold runInstaller
  by_cases hsw : (s1.mpmAutoAdmin = TriState.True && !s1.isAdminMode) = Bool.true
  · have hadm : s1.isAdminMode = false := by
      cases h : s1.isAdminMode <;> simp [h] at hsw ⊢
    have hm : s1.mpmAutoAdmin = TriState.True := by
      simp [hadm] at hsw; exact hsw
    cases outcome <;> simp [hsw, hadm, hm]
  · cases outcome <;> simp [hsw]

/-- Every `InstallPackage` call returns with the admin-mode flag it was
called with. -/
theorem installPackage_adminMode_frame (s : AppState) (packageId : String) (env : InstallEnv) :
    (InstallPackage s packageId env).state.isAdminMode = s.isAdminMode := by
  unfold InstallPackage
  by_cases h1 : packageId ∈ s.ignoredPackages
  · simp [h1]
  by_cases h2 : s.enableInstaller = TriState.False
  · simp [h1, h2]
  by_cases h3 : s.enableInstaller = TriState.Undetermined <;>
    by_cases h4 : env.prompt.yes = Bool.true <;>
    by_cases h6 : env.needProxyAuth = Bool.true <;>
    by_cases h7 : env.proxyOk = Bool.true <;>
    simp [h1, h2, h3, h4, h6, h7, promptUpdate_isAdminMode, runInstaller_isAdminMode]

/-- Effects of the `MiKTeXException` handler in the installer invocation. -/
theorem runInstaller_error_spec (s1 : AppState) (packageId : String) (a b : Bool) :
    (runInstaller s1 packageId InstallOutcome.miktexError a b).ret = false ∧
    (runInstaller s1 packageId InstallOutcome.miktexError a b).state.enableInstaller = TriState.False ∧
    packageId ∈ (runInstaller s1 packageId InstallOutcome.miktexError a b).state.ignoredPackages ∧
    (runInstaller s1 packageId InstallOutcome.miktexError a b).installRootSet = false := by
  unfold runInstaller
  by_cases hsw : (s1.mpmAutoAdmin = TriState.True && !s1.isAdminMode) = Bool.true <;>
    simp [hsw]

/-- Effects of a successful installer invocation. -/
theorem runInstaller_success_spec (s1 : AppState) (packageId : String) (a b : Bool) :
    (runInstaller s1 packageId InstallOutcome.success a b).ret = true ∧
    (runInstaller s1 packageId InstallOutcome.success a b).installRootSet = true := by
  unfold runInstaller
  by_cases hsw : (s1.mpmAutoAdmin = TriState.True && !s1.isAdminMode) = Bool.true <;>
    simp [hsw]

/-- An elevation happens only when the auto-admin flag is `True` and the
session was not already in admin mode. -/
theorem runInstaller_elevated (s1 : AppState) (packageId : String) (o : InstallOutcome)
    (a b : Bool) (h : (runInstaller s1 packageId o a b).events.elevated = Bool.true) :
    s1.mpmAutoAdmin = TriState.True ∧ s1.isAdminMode = false := by
  unfold runInstaller at h
  by_cases hsw : (s1.mpmAutoAdmin = TriState.True && !s1.isAdminMode) = Bool.true
  · simpa using hsw
  · cases o <;> simp [hsw] at h

/-- Every `InstallPackage` call either returns on one of the early paths
(no installer invocation, no elevation, result `false`) or hands over to
the installer invocation with the post-prompt state. -/
theorem installPackage_dispatch (s : AppState) (packageId : String) (env : InstallEnv) :
    ((InstallPackage s packageId env).events.installerInvoked = false ∧
     (InstallPackage s packageId env).events.elevated = false ∧
     (InstallPackage s packageId env).installRootSet = false ∧
     (InstallPackage s packageId env).ret = false) ∨
    (∃ s1 : AppState, (s.enableInstaller ≠ TriState.Undetermined → s1 = s) ∧
      InstallPackage s packageId env =
        runInstaller s1 packageId env.installerOutcome
          (decide (s.enableInstaller = TriState.Undetermined)) env.needProxyAuth) := by
  unfold InstallPackage
  by_cases h1 : packageId ∈ s.ignoredPackages
  · left; simp [h1, noEvents]
  by_cases h2 : s.enableInstaller = TriState.False
  · left; simp [h1, h2, noEvents]
  by_cases h3 : s.enableInstaller = TriState.Undetermined
  · by_cases h4 : env.prompt.yes = Bool.true
    · by_cases h6 : (env.needProxyAuth && !env.proxyOk) = Bool.true
      · left; simp [h1, h2, h3, h4, h6, noEvents]
      · right
        refine ⟨promptUpdate s packageId env.prompt, fun hc => absurd h3 hc, ?_⟩
        simp [h1, h2, h3, h4, h6]
    · left; simp [h1, h2, h3, h4, noEvents]
  · by_cases h6 : (env.needProxyAuth && !env.proxyOk) = Bool.true
    · left; simp [h1, h2, h3, h6, noEvents]
    · right
      refine ⟨s, fun _ => rfl, ?_⟩
      simp [h1, h2, h3, h6]

/-- `Init` only resolves the auto-admin flag to `True` in a shared setup. -/
theorem initAutoAdmin_eq_true (c : TriState) (sh : Bool)
    (h : initAutoAdmin c sh = TriState.True) : sh = Bool.true := by
  cases c <;> cases sh <;> simp [initAutoAdmin] at h ⊢

/-- The `installRoot` output parameter is assigned only when
`InstallPackage` returns `true`. -/
theorem installRootSet_imp_ret (s : AppState) (packageId : String) (env : InstallEnv) :
    (InstallPackage s packageId env).installRootSet = true →
    (InstallPackage s packageId env).ret = true := by
  rcases installPackage_dispatch s packageId env with ⟨_, _, h3, _⟩ | ⟨s1, _, hd⟩
  · intro h; rw [h3] at h; cases h
  · rw [hd]
    cases ho : env.installerOutcome
    · intro _; exact (runInstaller_success_spec s1 packageId _ _).1
    · intro h
      exact absurd h (by simp [(runInstaller_error_spec s1 packageId _ _).2.2.2])

/-- The actions a lock-holding maintenance run executes are exactly the
scheduled steps, whatever each subprocess returns. -/
theorem autoMaintenance_run_steps (s : MaintState) (exec : Step → Option Int) :
    (autoMaintenance s Bool.true Bool.true exec).steps.map Prod.fst = scheduledSteps s := by
  cases hu : mustUpdateDb s <;> cases hf : mustRefreshFndb s <;>
    cases hl : mustRefreshUserLanguageDat s <;>
    simp [autoMaintenance, scheduledSteps, hu, hf, hl]

/-! ## Claim theorems -/

/-- Claim C1: every call to `InstallPackage` that performs a scoped
elevation (auto-admin `True` and session not already in admin mode,
witnessed by the `elevated` event) returns with the session's admin-mode
flag equal to its pre-call value, regardless of whether the install
succeeded, failed, or raised a `MiKTeXException` inside the installer
invocation. -/
theorem installPackage_scoped_elevation (s : AppState) (packageId : String) (env : InstallEnv)
    (helev : (InstallPackage s packageId env).events.elevated = Bool.true) :
    (InstallPackage s packageId env).state.isAdminMode = s.isAdminMode :=
  installPackage_adminMode_frame s packageId env

/-- Witness for C1: a concrete call that elevates (auto-admin `True`,
user mode) and whose installer raises; the admin-mode flag is back to
`false` on return. -/
theorem installPackage_scoped_elevation_witness :
    (InstallPackage ⟨[], TriState.True, TriState.True, false⟩ "pkg"
        ⟨⟨true, false, false⟩, false, false, InstallOutcome.miktexError⟩).events.elevated = Bool.true ∧
    (InstallPackage ⟨[], TriState.True, TriState.True, false⟩ "pkg"
        ⟨⟨true, false, false⟩, false, false, InstallOutcome.miktexError⟩).state.isAdminMode = false :=
  ⟨by decide, installPackage_scoped_elevation _ _ _ (by decide)⟩

/-- Counterexample to claim C2 as stated: in the font/language refresh
class the staleness decision is NOT "derived missing or source newer".
With the derived `language.dat` missing and last admin maintenance at 5,
the spec formula `NeedsRefresh` says refresh, but the code's decision is
`false`: a missing `language.dat` disables this refresh class. -/
theorem needsRefresh_missing_language_artifact_cx :
    NeedsRefreshSpec 5 none = true ∧
    mustRefreshUserLanguageDat ⟨false, 5, 0, some 10, none, none, none⟩ = false := by
  decide

/-- Claim C2 (amended): in user mode, the file-index decision matches the
formula "missing or source strictly newer"; the font/language and
package-catalog decisions instead require the derived artifact to exist
and a source timestamp strictly greater than it — a missing derived
artifact never triggers those two classes.  Strict inequality everywhere,
so equal timestamps never trigger a refresh in any class. -/
theorem stalenessClasses_characterization (s : MaintState) (h : s.isAdminMode = false) :
    mustRefreshFndb s = NeedsRefreshSpec s.lastAdminMaintenance s.mpmDatabase ∧
    (mustRefreshUserLanguageDat s = true ↔
      ∃ t, s.userLanguageDat = some t ∧
        (s.lastAdminMaintenance > t ∨ ∃ u, s.userLanguagesIni = some u ∧ u > t)) ∧
    (mustUpdateDb s = true ↔
      ∃ t, s.userPackageManifestsIni = some t ∧ s.lastAdminUpdateDb > t) := by
  refine ⟨?_, ?_, ?_⟩
  · cases hmp : s.mpmDatabase <;> simp [mustRefreshFndb, NeedsRefreshSpec, hmp, h]
  · cases hld : s.userLanguageDat <;> cases hli : s.userLanguagesIni <;>
      simp [mustRefreshUserLanguageDat, IsNewer, hld, hli, h]
  · cases hpm : s.userPackageManifestsIni <;> simp [mustUpdateDb, hpm, h]

/-- Witness for C2 (amended): the characterization at a concrete user-mode
state with the index missing and both derived artifacts present and stale. -/
theorem stalenessClasses_characterization_witness :
    (⟨false, 5, 5, none, some 3, some 4, some 3⟩ : MaintState).isAdminMode = false ∧
    (mustRefreshFndb ⟨false, 5, 5, none, some 3, some 4, some 3⟩ =
        NeedsRefreshSpec 5 none ∧
      (mustRefreshUserLanguageDat ⟨false, 5, 5, none, some 3, some 4, some 3⟩ = true ↔
        ∃ t, (some 3 : Option Nat) = some t ∧
          (5 > t ∨ ∃ u, (some 4 : Option Nat) = some u ∧ u > t)) ∧
      (mustUpdateDb ⟨false, 5, 5, none, some 3, some 4, some 3⟩ = true ↔
        ∃ t, (some 3 : Option Nat) = some t ∧ 5 > t)) :=
  ⟨rfl, stalenessClasses_characterization ⟨false, 5, 5, none, some 3, some 4, some 3⟩ rfl⟩

/-- Claim C3: in admin mode the evaluation never reports font/language or
package-catalog staleness, and the file-index class is stale exactly when
the file-name database is absent. -/
theorem adminMode_staleness_asymmetry (s : MaintState) (h : s.isAdminMode = Bool.true) :
    mustRefreshUserLanguageDat s = false ∧ mustUpdateDb s = false ∧
    (mustRefreshFndb s = true ↔ s.mpmDatabase = none) := by
  refine ⟨?_, ?_, ?_⟩
  · simp [mustRefreshUserLanguageDat, h]
  · simp [mustUpdateDb, h]
  · cases hmp : s.mpmDatabase <;> simp [mustRefreshFndb, hmp, h]

/-- Witness for C3: an admin-mode state whose artifacts all exist and are
older than every source timestamp still reports no staleness beyond the
(present) index. -/
theorem adminMode_staleness_asymmetry_witness :
    (⟨true, 5, 5, some 1, some 1, some 1, some 1⟩ : MaintState).isAdminMode = Bool.true ∧
    (mustRefreshUserLanguageDat ⟨true, 5, 5, some 1, some 1, some 1, some 1⟩ = false ∧
      mustUpdateDb ⟨true, 5, 5, some 1, some 1, some 1, some 1⟩ = false ∧
      (mustRefreshFndb ⟨true, 5, 5, some 1, some 1, some 1, some 1⟩ = true ↔
        (⟨true, 5, 5, some 1, some 1, some 1, some 1⟩ : MaintState).mpmDatabase = none)) :=
  ⟨rfl, adminMode_staleness_asymmetry ⟨true, 5, 5, some 1, some 1, some 1, some 1⟩ rfl⟩

/-- Claim C4: a lock-holding maintenance run executes exactly the
scheduled steps in the fixed order package-catalog update, file-index
refresh, font-map configuration, language configuration; the executed
sequence is the same for any two step-outcome assignments, so no step's
failure (launch failure or non-zero exit) prevents a later scheduled
step. -/
theorem maintenance_step_order (s : MaintState) (exec exec2 : Step → Option Int) :
    (autoMaintenance s Bool.true Bool.true exec).steps.map Prod.fst = scheduledSteps s ∧
    (autoMaintenance s Bool.true Bool.true exec2).steps.map Prod.fst = scheduledSteps s ∧
    List.Sublist (scheduledSteps s)
      [Step.updateDb, Step.fndbRefresh, Step.fontmapsConfigure, Step.languagesConfigure] :=
  ⟨autoMaintenance_run_steps s exec, autoMaintenance_run_steps s exec2, by
    cases hu : mustUpdateDb s <;> cases hf : mustRefreshFndb s <;>
      cases hl : mustRefreshUserLanguageDat s <;> simp [scheduledSteps, hu, hf, hl]⟩

/-- Claim C5: with the maintenance lock already held by another process
(`TryLock` fails) a run executes no refresh action at all, and with no
staleness class true the run does not even attempt the lock. -/
theorem maintenance_lock_gating (s : MaintState) (helperFound : Bool)
    (exec : Step → Option Int) :
    (autoMaintenance s helperFound false exec).steps = [] ∧
    ((mustRefreshFndb s || mustRefreshUserLanguageDat s || mustUpdateDb s) = false →
      ∀ lockAcquired : Bool,
        (autoMaintenance s helperFound lockAcquired exec).lockAttempted = false ∧
        (autoMaintenance s helperFound lockAcquired exec).steps = []) := by
  constructor
  · unfold autoMaintenance
    split <;> simp
  · intro hno lockAcquired
    unfold autoMaintenance
    simp [hno]

/-- Witness for C5: an admin-mode state with a present index is not stale;
the failed-lock run executes nothing and the fresh state attempts no lock. -/
theorem maintenance_lock_gating_witness :
    (mustRefreshFndb ⟨true, 0, 0, some 0, none, none, none⟩ ||
      mustRefreshUserLanguageDat ⟨true, 0, 0, some 0, none, none, none⟩ ||
      mustUpdateDb ⟨true, 0, 0, some 0, none, none, none⟩) = false ∧
    (autoMaintenance ⟨true, 0, 0, some 0, none, none, none⟩ true false (fun _ => none)).steps = [] ∧
    (autoMaintenance ⟨true, 0, 0, some 0, none, none, none⟩ true true (fun _ => none)).lockAttempted = false :=
  ⟨by decide,
    (maintenance_lock_gating ⟨true, 0, 0, some 0, none, none, none⟩ true (fun _ => none)).1,
    ((maintenance_lock_gating ⟨true, 0, 0, some 0, none, none, none⟩ true (fun _ => none)).2
      (by decide) true).1⟩

/-- Claim C6: when the installer collaborator raises during an
`InstallPackage` call that reaches the installer invocation, afterwards
the installer-enable flag is `False`, the package is in the declined set,
the call returns the boolean `false` (the embedding is total, so no
exception escapes), and — for any collaborator behaviour — the
installation-root output is assigned only on a successful return. -/
theorem installPackage_failure_handling (s : AppState) (packageId : String) (env : InstallEnv)
    (herr : env.installerOutcome = InstallOutcome.miktexError)
    (hinv : (InstallPackage s packageId env).events.installerInvoked = Bool.true) :
    (InstallPackage s packageId env).ret = false ∧
    (InstallPackage s packageId env).state.enableInstaller = TriState.False ∧
    packageId ∈ (InstallPackage s packageId env).state.ignoredPackages ∧
    (InstallPackage s packageId env).installRootSet = false ∧
    (∀ env2 : InstallEnv, (InstallPackage s packageId env2).installRootSet = true →
      (InstallPackage s packageId env2).ret = true) := by
  rcases installPackage_dispatch s packageId env with ⟨h1, _, _, _⟩ | ⟨s1, _, hd⟩
  · rw [h1] at hinv; cases hinv
  · rw [hd, herr]
    exact ⟨(runInstaller_error_spec s1 packageId _ _).1,
      (runInstaller_error_spec s1 packageId _ _).2.1,
      (runInstaller_error_spec s1 packageId _ _).2.2.1,
      (runInstaller_error_spec s1 packageId _ _).2.2.2,
      fun env2 => installRootSet_imp_ret s packageId env2⟩

/-- Witness for C6: a concrete failing install with the installer enabled;
the flag flips to `False`, the package lands in the declined set, the
result is `false` and no install root is assigned. -/
theorem installPackage_failure_handling_witness :
    (⟨⟨true, false, false⟩, false, false, InstallOutcome.miktexError⟩ : InstallEnv).installerOutcome =
        InstallOutcome.miktexError ∧
    (InstallPackage ⟨[], TriState.True, TriState.False, false⟩ "pkg"
        ⟨⟨true, false, false⟩, false, false, InstallOutcome.miktexError⟩).events.installerInvoked = Bool.true ∧
    ((InstallPackage ⟨[], TriState.True, TriState.False, false⟩ "pkg"
        ⟨⟨true, false, false⟩, false, false, InstallOutcome.miktexError⟩).ret = false ∧
      (InstallPackage ⟨[], TriState.True, TriState.False, false⟩ "pkg"
        ⟨⟨true, false, false⟩, false, false, InstallOutcome.miktexError⟩).state.enableInstaller = TriState.False ∧
      "pkg" ∈ (InstallPackage ⟨[], TriState.True, TriState.False, false⟩ "pkg"
        ⟨⟨true, false, false⟩, false, false, InstallOutcome.miktexError⟩).state.ignoredPackages ∧
      (InstallPackage ⟨[], TriState.True, TriState.False, false⟩ "pkg"
        ⟨⟨true, false, false⟩, false, false, InstallOutcome.miktexError⟩).installRootSet = false ∧
      (∀ env2 : InstallEnv,
        (InstallPackage ⟨[], TriState.True, TriState.False, false⟩ "pkg" env2).installRootSet = true →
        (InstallPackage ⟨[], TriState.True, TriState.False, false⟩ "pkg" env2).ret = true)) :=
  ⟨rfl, by decide, installPackage_failure_handling _ _ _ rfl (by decide)⟩

/-- Claim C7: for a package already in the declined set, and likewise when
the installer-enable flag is `False`, `InstallPackage` returns `false`
with the state unchanged and no collaborator invoked (no prompt, no proxy
dialog, no installer call, no elevation). -/
theorem installPackage_declined_reject (s : AppState) (packageId : String) (env : InstallEnv)
    (h : packageId ∈ s.ignoredPackages ∨ s.enableInstaller = TriState.False) :
    InstallPackage s packageId env =
      { ret := false, state := s, installRootSet := false, events := noEvents } := by
  unfold InstallPackage
  rcases h with h | h
  · simp [h]
  · by_cases h1 : packageId ∈ s.ignoredPackages <;> simp [h1, h]

/-- Witness for C7: a declined package is rejected with no events even
though the installer is enabled and the collaborators would succeed. -/
theorem installPackage_declined_reject_witness :
    ("pkg" ∈ (⟨["pkg"], TriState.True, TriState.False, false⟩ : AppState).ignoredPackages ∨
      (⟨["pkg"], TriState.True, TriState.False, false⟩ : AppState).enableInstaller = TriState.False) ∧
    InstallPackage ⟨["pkg"], TriState.True, TriState.False, false⟩ "pkg"
        ⟨⟨true, false, false⟩, false, false, InstallOutcome.success⟩ =
      { ret := false, state := ⟨["pkg"], TriState.True, TriState.False, false⟩,
        installRootSet := false, events := noEvents } :=
  ⟨Or.inl (by decide),
    installPackage_declined_reject _ _ _ (Or.inl (by decide))⟩

set_option maxRecDepth 10000 in
/-- Counterexample to claim C8 as stated: recording 101 entries into an
empty pre-configuration queue leaves all 101 entries — the queue is NOT
cleared at the 101st entry; the overflow clear happens at the 102nd
entry, which leaves exactly one. -/
theorem traceBuffer_overflow_at_102_cx :
    (recordAll ([] : List Nat) (List.range 101)).length = 101 ∧
    (recordAll ([] : List Nat) (List.range 102)).length = 1 := by
  decide

set_option maxRecDepth 10000 in
/-- Claim C8 (amended): while the sink is unconfigured each `Record`
appends; whenever the queue's size exceeds 100 at the time of a `Record`
the whole queue is discarded (not trimmed) before the new entry is
appended; recording 150 entries clears fully at the 102nd entry and then
accumulates, leaving the last 49 entries. -/
theorem traceBuffer_overflow_spec (q : List Nat) (e : Nat) :
    (q.length > 100 → recordTrace q e = [e]) ∧
    (q.length ≤ 100 → recordTrace q e = q ++ [e]) ∧
    recordAll ([] : List Nat) (List.range 150) = (List.range 150).drop 101 := by
  refine ⟨?_, ?_, ?_⟩
  · intro h; simp [recordTrace, h]
  · intro h
    simp only [recordTrace]
    rw [if_neg (by omega)]
  · decide

/-- Witness for C8 (amended): the overflow rule evaluated on a queue of
101 entries (discarded) and a queue of 3 entries (appended). -/
theorem traceBuffer_overflow_spec_witness :
    ((List.replicate 101 0).length > 100 ∧ recordTrace (List.replicate 101 0) 7 = [7]) ∧
    ((List.replicate 3 0).length ≤ 100 ∧
      recordTrace (List.replicate 3 0) 7 = List.replicate 3 0 ++ [7]) :=
  ⟨⟨by decide, (traceBuffer_overflow_spec (List.replicate 101 0) 7).1 (by decide)⟩,
    ⟨by decide, (traceBuffer_overflow_spec (List.replicate 3 0) 7).2.1 (by decide)⟩⟩

/-- Claim C9: `Init` forces a configured auto-admin `True` to `False`
when the setup is not shared; hence whenever a call whose auto-admin flag
came from `Init`'s resolution (no consent prompt re-set it) performs an
elevation, the setup is shared. -/
theorem autoAdmin_elevation_shared_setup (c : TriState) (sh : Bool) (s : AppState)
    (packageId : String) (env : InstallEnv)
    (hs : s.mpmAutoAdmin = initAutoAdmin c sh)
    (hni : s.enableInstaller ≠ TriState.Undetermined)
    (helev : (InstallPackage s packageId env).events.elevated = Bool.true) :
    initAutoAdmin TriState.True false = TriState.False ∧ sh = Bool.true := by
  refine ⟨rfl, ?_⟩
  rcases installPackage_dispatch s packageId env with ⟨_, he, _, _⟩ | ⟨s1, hs1, hd⟩
  · rw [he] at helev; cases helev
  · rw [hd] at helev
    have h1 := runInstaller_elevated _ _ _ _ _ helev
    rw [hs1 hni, hs] at h1
    exact initAutoAdmin_eq_true c sh h1.1

/-- Witness for C9: a shared setup with configured auto-admin `True`, a
determined installer flag, and an elevating install call. -/
theorem autoAdmin_elevation_shared_setup_witness :
    (⟨[], TriState.True, TriState.True, false⟩ : AppState).mpmAutoAdmin =
        initAutoAdmin TriState.True Bool.true ∧
    (⟨[], TriState.True, TriState.True, false⟩ : AppState).enableInstaller ≠ TriState.Undetermined ∧
    (InstallPackage ⟨[], TriState.True, TriState.True, false⟩ "pkg"
        ⟨⟨true, false, false⟩, false, false, InstallOutcome.success⟩).events.elevated = Bool.true ∧
    (initAutoAdmin TriState.True false = TriState.False ∧ Bool.true = Bool.true) :=
  ⟨by decide, by decide, by decide,
    autoAdmin_elevation_shared_setup TriState.True Bool.true
      ⟨[], TriState.True, TriState.True, false⟩ "pkg"
      ⟨⟨true, false, false⟩, false, false, InstallOutcome.success⟩
      (by decide) (by decide) (by decide)⟩

/-- Claim C10: in a lock-holding maintenance run the font-map
configuration step executes if and only if the file-index refresh
condition holds — the two share one gate, so a run in which only the
language condition is true invokes no font-map step. -/
theorem fontmaps_gated_by_fndb (s : MaintState) (exec : Step → Option Int) :
    Step.fontmapsConfigure ∈ (autoMaintenance s Bool.true Bool.true exec).steps.map Prod.fst ↔
      mustRefreshFndb s = true := by
  rw [autoMaintenance_run_steps]
  cases hu : mustUpdateDb s <;> cases hf : mustRefreshFndb s <;>
    cases hl : mustRefreshUserLanguageDat s <;> simp [scheduledSteps, hu, hf, hl]

end MiKTeXApp
